import Mathlib

/-!
Verification of the wmbm core: shallow embedding of the serial manager,
M-Bus raw TTY bus, simulator and the Compact5 / Multical603 meter drivers,
with theorems checking the natural-language specification against the code.

Bytes are modelled as `ℕ` (with `% 256` where the code truncates to `uchar`),
`time_t` as `ℤ` or `ℕ`, C++ `double` meter state as `ℚ` (all arithmetic the
drivers perform on these values is exact on the integers involved), and
`std::vector<uchar>` as `List ℕ`.
-/

namespace Wmbm

/-! ## Compact5 meter driver (src/meter_compact5.cc) -/

/-- The typed scalar state of `MeterCompact5` (fields of the C++ struct). -/
structure Compact5State where
  total_energy_kwh : ℚ
  curr_energy_kwh : ℚ
  prev_energy_kwh : ℚ
  deriving DecidableEq

/-- Embedding of `MeterCompact5::processContent` (meter_compact5.cc:91-126).
`content` is the extracted payload of the telegram; the code reads bytes 3,4
(previous period, little endian) and 7,8 (current period) and stores
`prev`, `curr` and `prev+curr`.  The C++ indexes the vector without a bounds
check (callers guarantee at least 9 payload bytes); `getD _ 0` stands for the
in-bounds access. -/
def MeterCompact5.processContent (_s : Compact5State) (content : List ℕ) : Compact5State :=
  let prev_lo := content.getD 3 0
  let prev_hi := content.getD 4 0
  let prev : ℚ := 256 * prev_hi + prev_lo
  let curr_lo := content.getD 7 0
  let curr_hi := content.getD 8 0
  let curr : ℚ := 256 * curr_hi + curr_lo
  { total_energy_kwh := prev + curr
    curr_energy_kwh := curr
    prev_energy_kwh := prev }

/-! ## Timer wheel (meter_multical603.cc: Timer, executeTimerCallbacks) -/

/-- `Timer` (meter_multical603.cc:311-323) without the opaque `callback`
field; the identity of a fired timer is carried by the remaining fields. -/
structure Timer where
  id : ℕ
  seconds : ℤ
  last_call : ℤ
  name : String
  deriving DecidableEq

/-- `Timer::isTime` (meter_multical603.cc:319-322). -/
def Timer.isTime (t : Timer) (now : ℤ) : Bool :=
  decide (t.last_call + t.seconds ≤ now)

/-- Embedding of `SerialCommunicationManagerImp::executeTimerCallbacks`
(meter_multical603.cc:1127-1151): one pass over `timers_`; every timer whose
`isTime now` holds gets `last_call := now` and its updated copy is appended
to `to_be_called`, whose callbacks are then invoked in order.  Returns the
updated `timers_` list and the `to_be_called` list. -/
def executeTimerCallbacks (now : ℤ) : List Timer → List Timer × List Timer
  | [] => ([], [])
  | t :: ts =>
    let r := executeTimerCallbacks now ts
    if t.isTime now then
      ({ t with last_call := now } :: r.1, { t with last_call := now } :: r.2)
    else
      (t :: r.1, r.2)

/-! ## M-Bus raw TTY bus (src/mbus_rawtty.cc) -/

/-- Result of `checkMBusFrame` (wmbus): the status together with its three
out-parameters `frame_length`, `payload_len`, `payload_offset` (only
meaningful for a full frame). -/
inductive FrameStatus where
  | PartialFrame : FrameStatus
  | ErrorInFrame : FrameStatus
  | FullFrame (frame_length payload_len payload_offset : ℕ) : FrameStatus
  deriving DecidableEq

/-- A frame checker is progressive when a reported full frame is nonempty and
lies inside the buffer — true of the real `checkMBusFrame` (a full M-Bus
frame is at least one byte long), and exactly what makes the C++ `for(;;)`
eating loop terminate. -/
def Progressive (check : List ℕ → FrameStatus) : Prop :=
  ∀ b fl pl po, check b = FrameStatus.FullFrame fl pl po → 0 < fl ∧ fl ≤ b.length

/-- The payload handed to `handleTelegram` for a full frame
(mbus_rawtty.cc:140-146): empty when `payload_len` is zero, otherwise the
re-inserted length byte (`uchar` truncation) followed by the
`payload_len` bytes starting at `payload_offset`. -/
def mkPayload (b : List ℕ) (payload_len payload_offset : ℕ) : List ℕ :=
  if 0 < payload_len then
    payload_len % 256 :: (b.drop payload_offset).take payload_len
  else []

/-- The `for(;;)` eating loop of `MBusRawTTY::processSerialData`
(mbus_rawtty.cc:121-151), with a fuel argument standing for the loop's
(termination) measure; for a progressive checker any fuel exceeding the
buffer length gives the loop's behaviour (see `processLoopGo_fuel`).
Returns the remaining `read_buffer_` and the payloads handed to
`handleTelegram`, in order. -/
def processLoopGo (check : List ℕ → FrameStatus) : ℕ → List ℕ → List ℕ × List (List ℕ)
  | 0, b => (b, [])
  | fuel + 1, b =>
    match check b with
    | FrameStatus.PartialFrame => (b, [])
    | FrameStatus.ErrorInFrame => ([], [])
    | FrameStatus.FullFrame fl pl po =>
      let r := processLoopGo check fuel (b.drop fl)
      (r.1, mkPayload b pl po :: r.2)

/-- The eating loop run on a buffer with enough fuel. -/
def MBusRawTTY.processLoop (check : List ℕ → FrameStatus) (b : List ℕ) :
    List ℕ × List (List ℕ) :=
  processLoopGo check (b.length + 1) b

/-- Embedding of `MBusRawTTY::processSerialData` (mbus_rawtty.cc:109-152):
the received `data` is appended to `read_buffer_` and the eating loop runs
on the result. -/
def MBusRawTTY.processSerialData (check : List ℕ → FrameStatus)
    (read_buffer data : List ℕ) : List ℕ × List (List ℕ) :=
  MBusRawTTY.processLoop check (read_buffer ++ data)

theorem processLoopGo_fuel (check : List ℕ → FrameStatus) (hp : Progressive check) :
    ∀ fuel b, b.length < fuel →
      processLoopGo check fuel b = MBusRawTTY.processLoop check b := by
  intro fuel
  induction fuel using Nat.strong_induction_on with
  | _ fuel ih =>
    intro b hb
    match fuel, hb with
    | fuel + 1, hb =>
      rw [MBusRawTTY.processLoop]
      simp only [processLoopGo]
      cases hc : check b with
      | PartialFrame => rfl
      | ErrorInFrame => rfl
      | FullFrame fl pl po =>
        have hprog := hp b fl pl po hc
        have hlt : (b.drop fl).length < b.length := by
          simp only [List.length_drop]; omega
        have h1 : processLoopGo check fuel (b.drop fl)
            = MBusRawTTY.processLoop check (b.drop fl) :=
          ih fuel (Nat.lt_succ_self fuel) (b.drop fl) (by omega)
        have h2 : processLoopGo check b.length (b.drop fl)
            = MBusRawTTY.processLoop check (b.drop fl) :=
          ih b.length hb (b.drop fl) hlt
        dsimp only
        rw [h1, h2]

/-! ## Sending on the M-Bus (MBusRawTTY::sendTelegram, mbus_rawtty.cc:154-190) -/

/-- The frame kinds the code distinguishes when sending. -/
inductive ContentStartsWith where
  | SHORT_FRAME : ContentStartsWith
  | LONG_FRAME : ContentStartsWith
  deriving DecidableEq

/-- Result of a send attempt: the boolean the function returns, and the byte
sequence handed to `serial()->send`, if any. -/
structure SendOutcome where
  result : Bool
  sent : Option (List ℕ)
  deriving DecidableEq

/-- Embedding of `MBusRawTTY::sendTelegram` (mbus_rawtty.cc:154-190).
`readonly` is `serial()->readonly()`, `sendOk` the boolean the underlying
`serial()->send(msg)` returns.  The code returns `true` at once on a
read-only device, `false` (sending nothing) for more than 250 content
bytes, and otherwise builds the frame header, appends the content, the
checksum (low byte of the sum of the content bytes) and the `0x16` stop
byte, and returns whatever `send` returned. -/
def MBusRawTTY.sendTelegram (readonly sendOk : Bool)
    (starts_with : ContentStartsWith) (content : List ℕ) : SendOutcome :=
  if readonly then ⟨true, none⟩
  else if 250 < content.length then ⟨false, none⟩
  else
    let header :=
      match starts_with with
      | ContentStartsWith.SHORT_FRAME => [0x10]
      | ContentStartsWith.LONG_FRAME =>
        [0x68, content.length % 256, content.length % 256, 0x68]
    let crc := content.sum % 256
    ⟨sendOk, some (header ++ content ++ [crc, 0x16])⟩

/-! ## Read-only and writable serial devices (meter_multical603.cc) -/

/-- `SerialDeviceFile::send` (meter_multical603.cc:901-904): returns `true`,
transmits nothing.  The pair is (returned boolean, transmitted bytes). -/
def SerialDeviceFile.send (_data : List ℕ) : Bool × Option (List ℕ) :=
  (true, none)

/-- `SerialDeviceSimulator::send` (meter_multical603.cc:918): returns `true`,
transmits nothing. -/
def SerialDeviceSimulator.send (_data : List ℕ) : Bool × Option (List ℕ) :=
  (true, none)

/-- One `write(2)` outcome observed by the send loop of
`SerialDeviceTTY::send`: `wrote k` for a non-negative return `k`, `eintr`
for `-1` with `errno == EINTR`, `failed` for any other negative return. -/
inductive WriteOutcome where
  | wrote (k : ℕ) : WriteOutcome
  | eintr : WriteOutcome
  | failed : WriteOutcome
  deriving DecidableEq

/-- The write loop of `SerialDeviceTTY::send` (meter_multical603.cc:630-647)
over a trace of `write` outcomes: a successful write adds to `written` and
the loop ends with `true` once `written == n`; `EINTR` retries; any other
error ends the loop with `false`.  `none` models the loop still blocked in
`write` when the outcome trace runs out.  Returns the boolean result and
the total number of bytes written. -/
def SerialDeviceTTY.sendLoop (n : ℕ) : List WriteOutcome → ℕ → Option (Bool × ℕ)
  | [], _ => none
  | o :: os, written =>
    match o with
    | WriteOutcome.wrote k =>
      if written + k = n then some (true, written + k)
      else SerialDeviceTTY.sendLoop n os (written + k)
    | WriteOutcome.eintr => SerialDeviceTTY.sendLoop n os written
    | WriteOutcome.failed => some (false, written)

/-- `SerialDeviceTTY::send` (meter_multical603.cc:623-661): asserts the data
is nonempty, then runs the write loop for `data.size()` bytes. -/
def SerialDeviceTTY.send (outcomes : List WriteOutcome) (data : List ℕ) :
    Option (Bool × ℕ) :=
  if data.length = 0 then none
  else SerialDeviceTTY.sendLoop data.length outcomes 0

/-! ## Serial manager: device list, emergency stop, readiness set
(meter_multical603.cc: SerialCommunicationManagerImp) -/

/-- A managed serial device as the manager observes it: the boolean
predicates `opened()`, `working()`, `resetting()`, `skippingCallbacks()` and
the file descriptor `fd()` (meter_multical603.cc:396-425). -/
structure SDev where
  opened : Bool
  working : Bool
  resetting : Bool
  skippingCallbacks : Bool
  fd : ℤ
  deriving DecidableEq

/-- The manager state relevant to stopping: `running_`,
`expect_devices_to_work_` and `serial_devices_`. -/
structure Manager where
  running : Bool
  expect_devices_to_work : Bool
  devices : List SDev
  deriving DecidableEq

/-- `SerialCommunicationManagerImp::stop` (meter_multical603.cc:1007-1024)
restricted to its effect on `running_`: cleared when currently set. -/
def Manager.stop (m : Manager) : Manager :=
  if m.running then { m with running := false } else m

/-- `SerialCommunicationManagerImp::removeNonWorkingSerialDevices`
(meter_multical603.cc:1090-1111): erase every device with
`opened() && !working()`; if no device remains and
`expect_devices_to_work_` is latched, call `stop()`. -/
def removeNonWorkingSerialDevices (m : Manager) : Manager :=
  let remaining := m.devices.filter (fun d => !(d.opened && !d.working))
  let m' := { m with devices := remaining }
  if remaining.length = 0 && m.expect_devices_to_work then m'.stop else m'

/-- The `all_working` flag computed by the readiness loop
(meter_multical603.cc:1209-1226): cleared when any device has
`opened() && !working()`. -/
def allWorkingFlag (devs : List SDev) : Bool :=
  devs.all (fun d => !(d.opened && !d.working))

/-- The emergency-stop check right after the device scan in
`SerialCommunicationManagerImp::eventLoop` (meter_multical603.cc:1228-1233):
`stop()` when not all devices work and `expect_devices_to_work_` is
latched. -/
def eventLoopEmergencyStop (m : Manager) : Manager :=
  if !allWorkingFlag m.devices && m.expect_devices_to_work then m.stop else m

/-- The condition under which the readiness loop puts a device's fd into the
`select` read set (meter_multical603.cc:1214-1223): the two nested `if`s
`opened() && working() && !skippingCallbacks()` and
`!resetting() && fd() >= 0`. -/
def selectedForRead (sd : SDev) : Bool :=
  sd.opened && sd.working && !sd.skippingCallbacks
    && (!sd.resetting && decide (0 ≤ sd.fd))

/-- The `readfds` set assembled by the readiness loop, as the list of
selected descriptors. -/
def buildReadfds (devs : List SDev) : List ℤ :=
  (devs.filter selectedForRead).map (fun d => d.fd)

/-- The `to_be_notified` list built after `select` returns
(meter_multical603.cc:1264-1279): devices with
`opened() && working() && !resetting() && fd() >= 0` whose fd is marked
ready (`FD_ISSET`); `readyFds` is the set of descriptors `select` reported
ready.  Exactly these devices get their `on_data` callback. -/
def toBeNotified (devs : List SDev) (readyFds : List ℤ) : List SDev :=
  devs.filter (fun sd =>
    sd.opened && sd.working && !sd.resetting && decide (0 ≤ sd.fd)
      && readyFds.contains sd.fd)

/-! ## Device close and the onDisappear hook (meter_multical603.cc) -/

/-- The state of a `SerialDeviceTTY` relevant to `close()`: the fd, the
`resetting_` flag and whether `on_disappear_` is still set. -/
structure TTYDevState where
  fd : ℤ
  resetting : Bool
  hasOnDisappear : Bool
  deriving DecidableEq

/-- `SerialDeviceTTY::close` (meter_multical603.cc:607-621): early return on
an already-closed fd; otherwise release the fd, and when `on_disappear_` is
set and the device is not resetting, invoke it and clear it.  The boolean
reports whether the hook fired. -/
def SerialDeviceTTY.close (d : TTYDevState) : TTYDevState × Bool :=
  if d.fd = -1 then (d, false)
  else
    let d1 : TTYDevState := { d with fd := -1 }
    if d.hasOnDisappear && !d.resetting then
      ({ d1 with hasOnDisappear := false }, true)
    else (d1, false)

/-- The state of a `SerialDeviceCommand` relevant to `close()`. -/
structure CmdDevState where
  pid : ℕ
  fd : ℤ
  resetting : Bool
  hasOnDisappear : Bool
  deriving DecidableEq

/-- `SerialDeviceCommand::close` (meter_multical603.cc:736-757): early
return when both pid and fd are gone; stop the background shell when it is
still running (`still` is the `stillRunning` probe); invoke and clear
`on_disappear_` unless resetting; release the fd. -/
def SerialDeviceCommand.close (still : ℕ → Bool) (d : CmdDevState) :
    CmdDevState × Bool :=
  if d.pid = 0 ∧ d.fd = -1 then (d, false)
  else
    let d1 : CmdDevState :=
      if d.pid ≠ 0 ∧ still d.pid = true then { d with pid := 0 } else d
    if d1.hasOnDisappear && !d1.resetting then
      ({ d1 with hasOnDisappear := false, fd := -1 }, true)
    else ({ d1 with fd := -1 }, false)

/-! ## Simulator replay (src/wmbus_simulator.cc) -/

/-- The `"telegram="` directive tag compared against `l.substr(0,9)`. -/
def telegramKey : List Char := String.toList "telegram="

/-- Decimal-digit accumulator of `atoi` applied to the tail of the line. -/
def digitsVal : List Char → ℕ → ℕ
  | [], acc => acc
  | c :: cs, acc =>
    if c.isDigit then digitsVal cs (acc * 10 + (c.toNat - 48)) else acc

/-- `atoi(&l[i+1])` on the characters after the `'+'` (nonnegative case). -/
def atoiNat (l : List Char) : ℕ := digitsVal l 0

/-- The character scan of `WMBusSimulator::simulate`
(wmbus_simulator.cc:130-140) over the characters after `"telegram="`:
`'|'` is skipped, a `'+'` stops the scan recording the relative time, any
other character joins the hex string. -/
def scanHex : List Char → List Char × Option ℕ
  | [] => ([], none)
  | c :: cs =>
    if c = '|' then scanHex cs
    else if c = '+' then ([], some (atoiNat cs))
    else
      let r := scanHex cs
      (c :: r.1, r.2)

/-- Line classification of `WMBusSimulator::simulate`: `none` for a line not
beginning with `"telegram="` (skipped by `continue`), otherwise the hex
characters and the optional relative injection time. -/
def WMBusSimulator.parseLine (l : List Char) : Option (List Char × Option ℕ) :=
  if l.take 9 = telegramKey then some (scanHex (l.drop 9)) else none

/-- The waiting loop of `WMBusSimulator::simulate`
(wmbus_simulator.cc:148-158), one second per iteration: read the clock,
leave when past `deadline`, sleep one second, leave early when the manager
stopped.  `running t` tells whether `manager_->isRunning()` at time `t`.
The fuel argument stands for the loop measure; `waitLoop` supplies enough
for the loop to reach its deadline. -/
def waitLoopGo (running : ℕ → Bool) (deadline : ℕ) : ℕ → ℕ → ℕ
  | 0, now => now
  | fuel + 1, now =>
    if deadline < now then now
    else
      let now' := now + 1
      if running now' then waitLoopGo running deadline fuel now' else now'

/-- The waiting loop started at time `now`. -/
def waitLoop (running : ℕ → Bool) (deadline now : ℕ) : ℕ :=
  waitLoopGo running deadline (deadline + 1 - now) now

/-- One telegram injection: the time `handleTelegram` runs, the hex string
handed to `hex2bin`, and the parsed relative time of the line. -/
structure SimEvent where
  time : ℕ
  hex : List Char
  rel : Option ℕ
  deriving DecidableEq

/-- The line-processing loop of `WMBusSimulator::simulate`
(wmbus_simulator.cc:123-179): skip non-telegram lines; for a timed line wait
(when the deadline is ahead) before injecting; inject untimed lines at the
current time. -/
def WMBusSimulator.simGo (running : ℕ → Bool) (start : ℕ) :
    List (List Char) → ℕ → List SimEvent
  | [], _ => []
  | l :: ls, now =>
    match WMBusSimulator.parseLine l with
    | none => WMBusSimulator.simGo running start ls now
    | some (hex, none) =>
      ⟨now, hex, none⟩ :: WMBusSimulator.simGo running start ls now
    | some (hex, some r) =>
      let deadline := start + r
      let now' := if now < deadline then waitLoop running deadline now else now
      ⟨now', hex, some r⟩ :: WMBusSimulator.simGo running start ls now'

/-- `WMBusSimulator::simulate` (wmbus_simulator.cc:119-181): record
`start_time`, process every line, then call `manager_->stop()` (the boolean
component). -/
def WMBusSimulator.simulate (running : ℕ → Bool) (start : ℕ)
    (lines : List (List Char)) : List SimEvent × Bool :=
  (WMBusSimulator.simGo running start lines start, true)

/-! ## Multical603 meter driver (src/meter_multical603.cc) -/

/-- The typed scalar state of `MeterMultical603`
(meter_multical603.cc:49-64), with its C++ field initializers in
`MeterMultical603.init`. -/
structure Multical603State where
  info_codes : ℕ
  total_energy_kwh : ℚ
  total_volume_m3 : ℚ
  volume_flow_m3h : ℚ
  t1_temperature_c : ℚ
  has_t1_temperature : Bool
  t2_temperature_c : ℚ
  has_t2_temperature : Bool
  target_date : String
  energy_forward_kwh : ℕ
  energy_returned_kwh : ℕ
  deriving DecidableEq

/-- The freshly constructed meter state (field initializers,
meter_multical603.cc:52-63): temperatures start at 127 °C with both
has-flags unset. -/
def MeterMultical603.init : Multical603State :=
  { info_codes := 0
    total_energy_kwh := 0
    total_volume_m3 := 0
    volume_flow_m3h := 0
    t1_temperature_c := 127
    has_t1_temperature := false
    t2_temperature_c := 127
    has_t2_temperature := false
    target_date := ""
    energy_forward_kwh := 0
    energy_returned_kwh := 0 }

/-- The record lookups `MeterMultical603::processContent` performs on a
telegram, as their outcomes: `none` when the DV key is absent (`findKey`
false, or nothing extracted for the unguarded extracts), otherwise the
extracted value; for the two temperatures, the boolean `extractDVdouble`
returned together with the value it stored. -/
structure Multical603Records where
  infoCodes : Option ℕ
  energyForward : Option ℕ
  energyReturned : Option ℕ
  totalEnergy : Option ℚ
  totalVolume : Option ℚ
  volumeFlow : Option ℚ
  flowTemp : Option (Bool × ℚ)
  returnTemp : Option (Bool × ℚ)
  targetDate : Option String

/-- Embedding of `MeterMultical603::processContent`
(meter_multical603.cc:163-238): each lookup that hits updates its field, in
source order; for the two temperatures the has-flag is assigned the boolean
result of `extractDVdouble`; a missed lookup leaves the field untouched. -/
def MeterMultical603.processContent (s : Multical603State)
    (t : Multical603Records) : Multical603State :=
  let s := match t.infoCodes with
    | none => s
    | some v => { s with info_codes := v }
  let s := match t.energyForward with
    | none => s
    | some v => { s with energy_forward_kwh := v }
  let s := match t.energyReturned with
    | none => s
    | some v => { s with energy_returned_kwh := v }
  let s := match t.totalEnergy with
    | none => s
    | some v => { s with total_energy_kwh := v }
  let s := match t.totalVolume with
    | none => s
    | some v => { s with total_volume_m3 := v }
  let s := match t.volumeFlow with
    | none => s
    | some v => { s with volume_flow_m3h := v }
  let s := match t.flowTemp with
    | none => s
    | some p => { s with t1_temperature_c := p.2, has_t1_temperature := p.1 }
  let s := match t.returnTemp with
    | none => s
    | some p => { s with t2_temperature_c := p.2, has_t2_temperature := p.1 }
  match t.targetDate with
  | none => s
  | some v => { s with target_date := v }

/-- `MeterMultical603::hasT1Temperature` (meter_multical603.cc:141-144). -/
def MeterMultical603.hasT1Temperature (s : Multical603State) : Bool :=
  s.has_t1_temperature

/-- `MeterMultical603::hasT2Temperature` (meter_multical603.cc:152-155). -/
def MeterMultical603.hasT2Temperature (s : Multical603State) : Bool :=
  s.has_t2_temperature

/-- `MeterMultical603::t1Temperature` in °C (meter_multical603.cc:135-139;
the unit conversion from Celsius to Celsius is the identity). -/
def MeterMultical603.t1TemperatureC (s : Multical603State) : ℚ :=
  s.t1_temperature_c

/-- `MeterMultical603::t2Temperature` in °C (meter_multical603.cc:146-150). -/
def MeterMultical603.t2TemperatureC (s : Multical603State) : ℚ :=
  s.t2_temperature_c

/-! ## Claim theorems -/

/-- C1: for a payload of at least 9 bytes, `MeterCompact5::processContent`
sets the previous-period energy to `256*content[4]+content[3]` kWh, the
current-period energy to `256*content[8]+content[7]` kWh, and the total to
their sum; in particular bytes `(0x64,0x00)` at offsets 3-4 and `(0xC8,0x00)`
at offsets 7-8 give previous = 100, current = 200, total = 300. -/
theorem compact5_processContent_energies (s : Compact5State) (content : List ℕ)
    (_h : 9 ≤ content.length) :
    (MeterCompact5.processContent s content).prev_energy_kwh
        = 256 * (content.getD 4 0 : ℚ) + (content.getD 3 0 : ℚ)
    ∧ (MeterCompact5.processContent s content).curr_energy_kwh
        = 256 * (content.getD 8 0 : ℚ) + (content.getD 7 0 : ℚ)
    ∧ (MeterCompact5.processContent s content).total_energy_kwh
        = (MeterCompact5.processContent s content).prev_energy_kwh
          + (MeterCompact5.processContent s content).curr_energy_kwh
    ∧ (content.getD 3 0 = 0x64 → content.getD 4 0 = 0x00 →
       content.getD 7 0 = 0xC8 → content.getD 8 0 = 0x00 →
       (MeterCompact5.processContent s content).prev_energy_kwh = 100
       ∧ (MeterCompact5.processContent s content).curr_energy_kwh = 200
       ∧ (MeterCompact5.processContent s content).total_energy_kwh = 300) := by
  refine ⟨rfl, rfl, rfl, ?_⟩
  intro h3 h4 h7 h8
  simp only [MeterCompact5.processContent, h3, h4, h7, h8]
  norm_num

/-- Witness for C1 at the concrete 9-byte payload from the spec scenario. -/
theorem compact5_processContent_energies_witness :
    9 ≤ ([0, 0, 0, 0x64, 0x00, 0, 0, 0xC8, 0x00] : List ℕ).length
    ∧ (MeterCompact5.processContent ⟨0, 0, 0⟩ [0, 0, 0, 0x64, 0x00, 0, 0, 0xC8, 0x00]).prev_energy_kwh
        = 256 * (([0, 0, 0, 0x64, 0x00, 0, 0, 0xC8, 0x00] : List ℕ).getD 4 0 : ℚ)
          + (([0, 0, 0, 0x64, 0x00, 0, 0, 0xC8, 0x00] : List ℕ).getD 3 0 : ℚ) :=
  ⟨by decide,
   (compact5_processContent_energies ⟨0, 0, 0⟩
     [0, 0, 0, 0x64, 0x00, 0, 0, 0xC8, 0x00] (by decide)).1⟩

/-- C4: on a tick at time `now`, `executeTimerCallbacks` fires exactly the
timers with `last_call + period ≤ now` (in list order), updates `last_call`
to `now` on each fired timer, and leaves every other timer unchanged and
uncalled. -/
theorem executeTimerCallbacks_fires_exactly_due (now : ℤ) (timers : List Timer) :
    (executeTimerCallbacks now timers).1
      = timers.map (fun t => if t.isTime now then { t with last_call := now } else t)
    ∧ (executeTimerCallbacks now timers).2
      = (timers.filter (fun t => t.isTime now)).map (fun t => { t with last_call := now }) := by
  induction timers with
  | nil => exact ⟨rfl, rfl⟩
  | cons t ts ih =>
    simp only [executeTimerCallbacks, List.map_cons, List.filter_cons]
    by_cases h : t.isTime now
    · simp only [h, if_true, List.map_cons]
      exact ⟨by rw [ih.1], by rw [ih.2]⟩
    · simp only [h, if_false, Bool.false_eq_true]
      exact ⟨by rw [ih.1], by rw [ih.2]⟩

/-- C2: `MBusRawTTY::processSerialData` acts by the status `checkMBusFrame`
reports on the accumulated buffer: a partial frame leaves the buffer intact
for the next round; a frame error discards the whole buffer; a full frame
erases exactly `frame_length` bytes from the front, hands the payload to
`handleTelegram`, and the eating loop continues on the excess bytes. -/
theorem processSerialData_frame_status (check : List ℕ → FrameStatus)
    (hp : Progressive check) (buf data : List ℕ) :
    MBusRawTTY.processSerialData check buf data =
      match check (buf ++ data) with
      | FrameStatus.PartialFrame => (buf ++ data, [])
      | FrameStatus.ErrorInFrame => ([], [])
      | FrameStatus.FullFrame fl pl po =>
        ((MBusRawTTY.processLoop check ((buf ++ data).drop fl)).1,
         mkPayload (buf ++ data) pl po
           :: (MBusRawTTY.processLoop check ((buf ++ data).drop fl)).2) := by
  rw [MBusRawTTY.processSerialData, MBusRawTTY.processLoop]
  simp only [processLoopGo]
  cases hc : check (buf ++ data) with
  | PartialFrame => rfl
  | ErrorInFrame => rfl
  | FullFrame fl pl po =>
    have hprog := hp (buf ++ data) fl pl po hc
    have hlt : ((buf ++ data).drop fl).length < (buf ++ data).length := by
      simp only [List.length_drop]; omega
    dsimp only
    rw [processLoopGo_fuel check hp (buf ++ data).length ((buf ++ data).drop fl) hlt]

/-- Witness for C2: a checker that always reports a partial frame (and is
vacuously progressive) leaves the accumulated bytes untouched. -/
theorem processSerialData_frame_status_witness :
    MBusRawTTY.processSerialData (fun _ => FrameStatus.PartialFrame) [1] [2]
      = ([1, 2], []) :=
  processSerialData_frame_status (fun _ => FrameStatus.PartialFrame)
    (fun _ _ _ _ h => nomatch h) [1] [2]

/-- C5 fails as stated: on a read-only serial device `sendTelegram` returns
`true` before the 250-byte check, so a 251-byte content does not make it
return `false`. -/
theorem sendTelegram_over250_readonly_counterexample :
    (MBusRawTTY.sendTelegram true true ContentStartsWith.LONG_FRAME
      (List.replicate 251 0)).result ≠ false := by
  decide

/-- C5 (amended): on a device that is not read-only, a long-frame send of at
most 250 content bytes hands `0x68 L L 0x68 content CS 0x16` to the serial
device, with both `L` bytes equal to the content length and `CS` the low
byte of the sum of the content bytes, and returns what the underlying send
returned; more than 250 content bytes give `false` with nothing sent. -/
theorem sendTelegram_long_frame (sendOk : Bool) (content : List ℕ) :
    (content.length ≤ 250 →
      MBusRawTTY.sendTelegram false sendOk ContentStartsWith.LONG_FRAME content
        = ⟨sendOk, some ([0x68, content.length, content.length, 0x68]
            ++ content ++ [content.sum % 256, 0x16])⟩)
    ∧ (250 < content.length →
      MBusRawTTY.sendTelegram false sendOk ContentStartsWith.LONG_FRAME content
        = ⟨false, none⟩) := by
  constructor
  · intro h
    have h' : ¬ 250 < content.length := by omega
    have hm : content.length % 256 = content.length :=
      Nat.mod_eq_of_lt (by omega)
    simp [MBusRawTTY.sendTelegram, h', hm]
  · intro h
    simp [MBusRawTTY.sendTelegram, h]

/-- Witness for C5 at a concrete 3-byte content. -/
theorem sendTelegram_long_frame_witness :
    ([1, 2, 3] : List ℕ).length ≤ 250
    ∧ MBusRawTTY.sendTelegram false true ContentStartsWith.LONG_FRAME [1, 2, 3]
        = ⟨true, some [0x68, 3, 3, 0x68, 1, 2, 3, 6, 0x16]⟩ :=
  ⟨by decide, (sendTelegram_long_frame true [1, 2, 3]).1 (by decide)⟩

/-- C6: read-only sources (file/stdin, simulator) report success without
transmitting; `MBusRawTTY::sendTelegram` returns `true` at once on a
read-only serial device; and the TTY write loop retries on `EINTR` and,
whenever it reports success, has written exactly all `n` requested bytes. -/
theorem readonly_send_and_tty_send_all :
    (∀ data, SerialDeviceFile.send data = (true, none))
    ∧ (∀ data, SerialDeviceSimulator.send data = (true, none))
    ∧ (∀ (sendOk : Bool) (sw : ContentStartsWith) (content : List ℕ),
        MBusRawTTY.sendTelegram true sendOk sw content = ⟨true, none⟩)
    ∧ (∀ (n : ℕ) (os : List WriteOutcome) (w k : ℕ),
        SerialDeviceTTY.sendLoop n os w = some (true, k) → k = n)
    ∧ (∀ (n : ℕ) (os : List WriteOutcome) (w : ℕ),
        SerialDeviceTTY.sendLoop n (WriteOutcome.eintr :: os) w
          = SerialDeviceTTY.sendLoop n os w) := by
  refine ⟨fun _ => rfl, fun _ => rfl, fun _ _ _ => rfl, ?_, fun _ _ _ => rfl⟩
  intro n os
  induction os with
  | nil => intro w k h; simp [SerialDeviceTTY.sendLoop] at h
  | cons o os ih =>
    intro w k h
    cases o with
    | wrote m =>
      simp only [SerialDeviceTTY.sendLoop] at h
      by_cases hc : w + m = n
      · rw [if_pos hc] at h
        have := (Option.some.injEq _ _).mp h
        have hk : w + m = k := congrArg Prod.snd this
        omega
      · rw [if_neg hc] at h
        exact ih (w + m) k h
    | eintr =>
      simp only [SerialDeviceTTY.sendLoop] at h
      exact ih w k h
    | failed =>
      simp [SerialDeviceTTY.sendLoop] at h

/-- Witness for C6: a single successful write of all 3 bytes succeeds and
the theorem forces the written count to equal the requested count. -/
theorem readonly_send_and_tty_send_all_witness :
    SerialDeviceTTY.sendLoop 3 [WriteOutcome.wrote 3] 0 = some (true, 3)
    ∧ (3 : ℕ) = 3 :=
  ⟨by decide,
   readonly_send_and_tty_send_all.2.2.2.1 3 [WriteOutcome.wrote 3] 0 3 (by decide)⟩

/-- Both branches of `stop()` leave `running_` cleared. -/
theorem Manager.stop_running (m : Manager) : m.stop.running = false := by
  rw [Manager.stop]
  split
  · rfl
  · rename_i h
    simpa using h

/-- C3: with `expect_devices_to_work_` latched, once every device is
non-working (`opened() && !working()`), both the sweep
`removeNonWorkingSerialDevices` and the event loop's emergency check call
`stop()`, clearing `running_`; while the latch is off, neither path touches
`running_`. -/
theorem emergency_stop_latched (m : Manager) :
    (m.expect_devices_to_work = true → m.devices ≠ [] →
      (∀ d ∈ m.devices, d.opened = true ∧ d.working = false) →
      (removeNonWorkingSerialDevices m).running = false
      ∧ (eventLoopEmergencyStop m).running = false)
    ∧ (m.expect_devices_to_work = false →
      (removeNonWorkingSerialDevices m).running = m.running
      ∧ (eventLoopEmergencyStop m).running = m.running) := by
  constructor
  · intro hexp hne hall
    constructor
    · have hnil : m.devices.filter (fun d => !(d.opened && !d.working)) = [] := by
        rw [List.filter_eq_nil_iff]
        intro d hd
        obtain ⟨ho, hw⟩ := hall d hd
        simp [ho, hw]
      rw [removeNonWorkingSerialDevices]
      simp only [hnil, List.length_nil, hexp]
      rw [if_pos (by simp)]
      exact Manager.stop_running _
    · obtain ⟨d, hd⟩ := List.exists_mem_of_ne_nil m.devices hne
      have hflag : allWorkingFlag m.devices = false := by
        obtain ⟨ho, hw⟩ := hall d hd
        rw [allWorkingFlag]
        rcases h : m.devices.all (fun d => !(d.opened && !d.working)) with _ | _
        · rfl
        · have hx := List.all_eq_true.mp h d hd
          simp [ho, hw] at hx
      rw [eventLoopEmergencyStop]
      rw [if_pos (by simp [hflag, hexp])]
      exact Manager.stop_running _
  · intro hexp
    constructor
    · rw [removeNonWorkingSerialDevices]
      rw [if_neg (by simp [hexp])]
    · rw [eventLoopEmergencyStop]
      rw [if_neg (by simp [hexp])]

/-- Witness for C3 on a one-device manager whose device has gone
non-working while the latch is set. -/
theorem emergency_stop_latched_witness :
    (true : Bool) = true
    ∧ ([(⟨true, false, false, false, 3⟩ : SDev)] ≠ [])
    ∧ (removeNonWorkingSerialDevices
        ⟨true, true, [⟨true, false, false, false, 3⟩]⟩).running = false
    ∧ (eventLoopEmergencyStop
        ⟨true, true, [⟨true, false, false, false, 3⟩]⟩).running = false := by
  have h := (emergency_stop_latched ⟨true, true, [⟨true, false, false, false, 3⟩]⟩).1
    rfl (by decide) (by decide)
  exact ⟨rfl, by decide, h.1, h.2⟩

/-- C7: a device's fd is in the assembled `select` read set exactly when the
device satisfies `opened ∧ working ∧ ¬resetting ∧ fd ≥ 0 ∧
¬skippingCallbacks`, and a device failing any of these conditions is absent
from the `to_be_notified` list, so it receives no `on_data` callback in
that iteration (descriptors of live devices are pairwise distinct). -/
theorem readiness_set_membership (devs : List SDev) (readyFds : List ℤ)
    (sd : SDev) (hmem : sd ∈ devs)
    (hfd : devs.Pairwise (fun a b => a.fd ≠ b.fd)) :
    (sd.fd ∈ buildReadfds devs ↔ selectedForRead sd = true)
    ∧ (readyFds ⊆ buildReadfds devs → selectedForRead sd = false →
        sd ∉ toBeNotified devs readyFds) := by
  have hsym : Symmetric (fun a b : SDev => a.fd ≠ b.fd) :=
    fun _ _ h h2 => h h2.symm
  have hiff : sd.fd ∈ buildReadfds devs ↔ selectedForRead sd = true := by
    constructor
    · intro h
      obtain ⟨d, hdf, hdfd⟩ := List.mem_map.mp h
      obtain ⟨hdmem, hdsel⟩ := List.mem_filter.mp hdf
      by_cases hde : d = sd
      · rwa [hde] at hdsel
      · exact absurd hdfd (hfd.forall hsym hdmem hmem hde)
    · intro h
      exact List.mem_map.mpr ⟨sd, List.mem_filter.mpr ⟨hmem, h⟩, rfl⟩
  refine ⟨hiff, fun hsub hnsel hin => ?_⟩
  obtain ⟨_, hcond⟩ := List.mem_filter.mp hin
  have hready : sd.fd ∈ readyFds := by
    have := (Bool.and_eq_true _ _).mp hcond
    exact List.mem_of_elem_eq_true this.2
  exact absurd (hiff.mp (hsub hready)) (by simp [hnsel])

/-- Witness for C7 on a single ready, fully-qualified device. -/
theorem readiness_set_membership_witness :
    ((⟨true, true, false, false, 5⟩ : SDev) ∈ [(⟨true, true, false, false, 5⟩ : SDev)])
    ∧ ((⟨true, true, false, false, 5⟩ : SDev).fd
          ∈ buildReadfds [(⟨true, true, false, false, 5⟩ : SDev)]
        ↔ selectedForRead ⟨true, true, false, false, 5⟩ = true) := by
  have h := readiness_set_membership [(⟨true, true, false, false, 5⟩ : SDev)] [5]
    ⟨true, true, false, false, 5⟩ (by decide) (by simp)
  exact ⟨by decide, h.1⟩

/-- While the manager keeps running, the waiting loop does not return
before its deadline. -/
theorem waitLoopGo_ge (running : ℕ → Bool) (deadline : ℕ)
    (hr : ∀ t, running t = true) :
    ∀ fuel now, deadline + 1 ≤ fuel + now →
      deadline ≤ waitLoopGo running deadline fuel now := by
  intro fuel
  induction fuel with
  | zero => intro now h; simpa [waitLoopGo] using by omega
  | succ fuel ih =>
    intro now h
    rw [waitLoopGo]
    split
    · omega
    · rename_i hnd
      dsimp only
      rw [hr (now + 1)]
      simp only [if_true]
      exact ih (now + 1) (by omega)

theorem waitLoop_ge (running : ℕ → Bool) (deadline now : ℕ)
    (hr : ∀ t, running t = true) : deadline ≤ waitLoop running deadline now :=
  waitLoopGo_ge running deadline hr (deadline + 1 - now) now (by omega)

/-- While the manager keeps running, every timed injection the replay loop
performs happens no earlier than `start + rel`. -/
theorem simGo_rel_time (running : ℕ → Bool) (start : ℕ)
    (hr : ∀ t, running t = true) :
    ∀ (lines : List (List Char)) (now : ℕ),
      ∀ e ∈ WMBusSimulator.simGo running start lines now,
        ∀ r, e.rel = some r → start + r ≤ e.time := by
  intro lines
  induction lines with
  | nil => intro now e he; simp [WMBusSimulator.simGo] at he
  | cons l ls ih =>
    intro now e he r hr2
    rcases hpl : WMBusSimulator.parseLine l with _ | ⟨hex, _ | r'⟩
    · rw [WMBusSimulator.simGo, hpl] at he
      exact ih now e he r hr2
    · rw [WMBusSimulator.simGo, hpl] at he
      rcases List.mem_cons.mp he with he1 | he2
      · rw [he1] at hr2
        exact absurd hr2 (by simp)
      · exact ih now e he2 r hr2
    · rw [WMBusSimulator.simGo, hpl] at he
      rcases List.mem_cons.mp he with he1 | he2
      · subst he1
        have hrr : r' = r := by simpa using hr2
        subst hrr
        dsimp only
        split
        · exact waitLoop_ge running (start + r') now hr
        · omega
      · exact ih _ e he2 r hr2

/-- C8 (amended): in `WMBusSimulator::simulate`, a line not beginning with
`telegram=` is ignored; a `telegram=<hex>` line without a `+<seconds>`
suffix is injected at the current time; while the manager keeps running, a
`telegram=<hex>|+<seconds>` line is injected no earlier than
`start_time + seconds` (when the manager stops during the wait the loop
abandons the wait and injects at once); and after processing every line
`simulate` calls the manager's `stop()`. -/
theorem simulator_timing (running : ℕ → Bool) (start : ℕ)
    (lines : List (List Char)) :
    (∀ (l : List Char) (ls : List (List Char)) (now : ℕ),
       l.take 9 ≠ telegramKey →
       WMBusSimulator.simGo running start (l :: ls) now
         = WMBusSimulator.simGo running start ls now)
    ∧ (∀ (l : List Char) (ls : List (List Char)) (now : ℕ) (hex : List Char),
       WMBusSimulator.parseLine l = some (hex, none) →
       WMBusSimulator.simGo running start (l :: ls) now
         = ⟨now, hex, none⟩ :: WMBusSimulator.simGo running start ls now)
    ∧ ((∀ t, running t = true) →
       ∀ e ∈ (WMBusSimulator.simulate running start lines).1,
         ∀ r, e.rel = some r → start + r ≤ e.time)
    ∧ (WMBusSimulator.simulate running start lines).2 = true := by
  refine ⟨?_, ?_, ?_, rfl⟩
  · intro l ls now h
    rw [WMBusSimulator.simGo]
    rw [show WMBusSimulator.parseLine l = none from if_neg h]
  · intro l ls now hex h
    rw [WMBusSimulator.simGo, h]
  · intro hrun e he r hrel
    exact simGo_rel_time running start hrun lines start e he r hrel

/-- C8 fails as stated: when the manager stops during the wait (here it is
already stopped at time 1), the waiting loop is abandoned and the telegram
of `telegram=AA|+5` is injected at time 1, earlier than `start_time + 5`. -/
theorem simulator_timing_counterexample :
    (WMBusSimulator.simulate (fun t => decide (t = 0)) 0
        [String.toList "telegram=AA|+5"]).1
      = [⟨1, String.toList "AA", some 5⟩]
    ∧ 1 < 0 + 5 := by
  constructor
  · rfl
  · decide

/-- Witness for C8: with the manager running throughout, the telegram of
`telegram=AA|+5` is injected at time 6, not earlier than `0 + 5`. -/
theorem simulator_timing_witness :
    (⟨6, String.toList "AA", some 5⟩ : SimEvent)
        ∈ (WMBusSimulator.simulate (fun _ => true) 0
            [String.toList "telegram=AA|+5"]).1
    ∧ 0 + 5 ≤ (6 : ℕ) :=
  ⟨by decide,
   (simulator_timing (fun _ => true) 0 [String.toList "telegram=AA|+5"]).2.2.1
     (fun _ => rfl) ⟨6, String.toList "AA", some 5⟩ (by decide) 5 rfl⟩

/-- C9: for the TTY device, a `close()` executed on an open fd outside a
reset fires the `on_disappear_` hook and clears it, and any `close()`
following a `close()` fires nothing (the fd is already released); a close
during a reset never fires the hook.  The command (sub-process) device
behaves the same on repeated closes: the hook fires at most once. -/
theorem onDisappear_fires_at_most_once :
    (∀ d : TTYDevState, d.fd ≠ -1 → d.resetting = false →
        d.hasOnDisappear = true →
        SerialDeviceTTY.close d
          = ({ d with fd := -1, hasOnDisappear := false }, true))
    ∧ (∀ d : TTYDevState,
        (SerialDeviceTTY.close (SerialDeviceTTY.close d).1).2 = false)
    ∧ (∀ d : TTYDevState, d.resetting = true →
        (SerialDeviceTTY.close d).2 = false)
    ∧ (∀ (still : ℕ → Bool) (d : CmdDevState),
        (SerialDeviceCommand.close still (SerialDeviceCommand.close still d).1).2
          = false)
    ∧ (∀ (still : ℕ → Bool) (d : CmdDevState), d.resetting = true →
        (SerialDeviceCommand.close still d).2 = false) := by
  refine ⟨?_, ?_, ?_, ?_, ?_⟩
  · intro d h1 h2 h3
    rw [SerialDeviceTTY.close, if_neg h1, if_pos (by simp [h2, h3])]
  · intro d
    have hfd : (SerialDeviceTTY.close d).1.fd = -1 := by
      rw [SerialDeviceTTY.close]
      split
      · rename_i h; exact h
      · split <;> rfl
    rw [SerialDeviceTTY.close, if_pos hfd]
  · intro d h
    rw [SerialDeviceTTY.close]
    split
    · rfl
    · rw [if_neg (by simp [h])]
  · intro still d
    obtain ⟨p, f, rs, ho⟩ := d
    by_cases hp : p = 0 <;> by_cases hf : f = (-1 : ℤ) <;> cases rs <;> cases ho
      <;> by_cases hs : still p = true
      <;> simp [SerialDeviceCommand.close, hp, hf, hs]
  · intro still d h
    obtain ⟨p, f, rs, ho⟩ := d
    have h' : rs = true := h
    subst h'
    by_cases hp : p = 0 <;> by_cases hf : f = (-1 : ℤ) <;> cases ho
      <;> by_cases hs : still p = true
      <;> simp [SerialDeviceCommand.close, hp, hf, hs]

/-- Witness for C9: a live TTY device with the hook installed fires it on
the first close. -/
theorem onDisappear_fires_at_most_once_witness :
    ((3 : ℤ) ≠ -1)
    ∧ SerialDeviceTTY.close ⟨3, false, true⟩ = (⟨-1, false, false⟩, true) :=
  ⟨by decide,
   onDisappear_fires_at_most_once.1 ⟨3, false, true⟩ (by decide) rfl rfl⟩

/-- C10: a freshly constructed Multical603 meter reports both temperatures
as 127 °C with both has-flags false; processing a telegram without a
FlowTemperature (resp. ReturnTemperature) record leaves the corresponding
value and flag unchanged; and when the record is found the has-flag takes
exactly the success bit of the extraction. -/
theorem multical603_temperature_state :
    MeterMultical603.t1TemperatureC MeterMultical603.init = 127
    ∧ MeterMultical603.t2TemperatureC MeterMultical603.init = 127
    ∧ MeterMultical603.hasT1Temperature MeterMultical603.init = false
    ∧ MeterMultical603.hasT2Temperature MeterMultical603.init = false
    ∧ (∀ (s : Multical603State) (t : Multical603Records), t.flowTemp = none →
        (MeterMultical603.processContent s t).t1_temperature_c = s.t1_temperature_c
        ∧ (MeterMultical603.processContent s t).has_t1_temperature
            = s.has_t1_temperature)
    ∧ (∀ (s : Multical603State) (t : Multical603Records), t.returnTemp = none →
        (MeterMultical603.processContent s t).t2_temperature_c = s.t2_temperature_c
        ∧ (MeterMultical603.processContent s t).has_t2_temperature
            = s.has_t2_temperature)
    ∧ (∀ (s : Multical603State) (t : Multical603Records) (ok : Bool) (v : ℚ),
        t.flowTemp = some (ok, v) →
        (MeterMultical603.processContent s t).has_t1_temperature = ok)
    ∧ (∀ (s : Multical603State) (t : Multical603Records) (ok : Bool) (v : ℚ),
        t.returnTemp = some (ok, v) →
        (MeterMultical603.processContent s t).has_t2_temperature = ok) := by
  refine ⟨rfl, rfl, rfl, rfl, ?_, ?_, ?_, ?_⟩
  · rintro s ⟨ic, ef, er, te, tv, vf, ft, rt, td⟩ h
    cases h
    cases ic <;> cases ef <;> cases er <;> cases te <;> cases tv <;> cases vf
      <;> cases rt <;> cases td <;> exact ⟨rfl, rfl⟩
  · rintro s ⟨ic, ef, er, te, tv, vf, ft, rt, td⟩ h
    cases h
    cases ic <;> cases ef <;> cases er <;> cases te <;> cases tv <;> cases vf
      <;> cases ft <;> cases td <;> exact ⟨rfl, rfl⟩
  · rintro s ⟨ic, ef, er, te, tv, vf, ft, rt, td⟩ ok v h
    cases h
    cases ic <;> cases ef <;> cases er <;> cases te <;> cases tv <;> cases vf
      <;> cases rt <;> cases td <;> rfl
  · rintro s ⟨ic, ef, er, te, tv, vf, ft, rt, td⟩ ok v h
    cases h
    cases ic <;> cases ef <;> cases er <;> cases te <;> cases tv <;> cases vf
      <;> cases ft <;> cases td <;> rfl

/-- Witness for C10: a telegram with no records at all leaves the T1 state
of the fresh meter unchanged. -/
theorem multical603_temperature_state_witness :
    ((⟨none, none, none, none, none, none, none, none, none⟩
        : Multical603Records).flowTemp = none)
    ∧ (MeterMultical603.processContent MeterMultical603.init
        ⟨none, none, none, none, none, none, none, none, none⟩).t1_temperature_c
      = MeterMultical603.init.t1_temperature_c :=
  ⟨rfl,
   (multical603_temperature_state.2.2.2.2.1 MeterMultical603.init
     ⟨none, none, none, none, none, none, none, none, none⟩ rfl).1⟩

end Wmbm
